import Mathlib

/-!
# Supersonic browsing pages, router and volume control

A shallow embedding of `ui/browsing/genrespage.go`, `ui/browsing/router.go` and
`ui/widgets/auxcontrols.go`.

Conventions of the embedding:

* A Go callback field (`OnNavTo`, `OnSetVolume`, `OnTapped`) is a flag telling
  whether the field is non-nil; every operation that may invoke a callback
  returns the list of invocations it made, oldest first.
* A goroutine started with `go` is returned to the caller as a pending task and
  is run by applying the corresponding function to the page.
* Strings are sequences of Unicode characters, and a nil slice is the empty list.
* Integers are unbounded; a float that holds an integer is kept as that integer,
  with the conversions `float64` and `toInt` between the two.
* Toolkit calls that only redraw (`ExtendBaseWidget`, layout containers, labels,
  `Refresh` of the list and of the icon) are left out. `Refresh` of the slider
  clamps the slider value into its range and is part of the embedding.
-/

namespace Supersonic

/-! ## Go `strings` functions used by the search -/

/-- Go `strings.HasPrefix` on the characters of a string. -/
def startsWith : List Char → List Char → Bool
  | _, [] => true
  | [], _ :: _ => false
  | c :: s, d :: p => c == d && startsWith s p

/-- Go `strings.Index(s, substr) >= 0`, scanning the start positions left to right. -/
def containsChars : List Char → List Char → Bool
  | [], sub => startsWith [] sub
  | c :: s, sub => startsWith (c :: s) sub || containsChars s sub

/-- Go `strings.Contains(s, substr)`: reports whether `substr` is within `s`. -/
def Contains (s substr : String) : Bool :=
  containsChars s.data substr.data

/-- The spec's "contains as a substring": some text before and after surrounds it. -/
def IsSubstring (sub s : String) : Prop :=
  ∃ pre post : List Char, s.data = pre ++ sub.data ++ post

/-- Go `strings.ToLower(s)`: every rune of `s` mapped through `unicode.ToLower`.
The rune table belongs to the Go runtime and is the parameter `lower`. -/
def ToLower (lower : Char → Char) (s : String) : String :=
  ⟨s.data.map lower⟩

/-! ## `mediaprovider` -/

/-- Modelled from the spec: `mediaprovider.Genre` is declared in another
package; the spec gives it a name, an album count and a track count. -/
structure Genre where
  Name : String
  AlbumCount : Int
  TrackCount : Int
  deriving DecidableEq, Repr

/-- Modelled from the spec: the part of `mediaprovider.MediaProvider` the genres
page uses, `GetGenres() -> (list of Genre, error)`. A Go call returns both
components; the error is `none` for nil. The slice holds the records its
pointers refer to, and a nil slice is the empty list. -/
structure MediaProvider where
  GetGenres : List Genre × Option String

/-- The controller handle a page keeps (`*controller.Controller`); only its
identity is carried. -/
structure Controller where
  id : Nat
  deriving DecidableEq, Repr

/-- Modelled from the spec: `sharedutil.FilterSlice` lives in another package;
it keeps the elements that pass the test, in their original order. -/
def FilterSlice {α : Type} (ss : List α) (test : α → Bool) : List α :=
  ss.filter test

/-! ## `genrespage.go` -/

/-- The callback a list row carries in `OnTapped`. -/
inductive RowCallback where
  /-- The closure `func() { a.onRowDoubleTapped(r.Item) }` of `NewGenreList`. -/
  | rowDoubleTapped
  deriving DecidableEq, Repr

/-- Source `GenreList`: the visible items and whether `OnNavTo` is set. -/
structure GenreList where
  Items : List Genre
  OnNavTo : Bool
  deriving DecidableEq, Repr

/-- Source `GenreListRow`: the bound item (nil until the list binds one) and `OnTapped`. -/
structure GenreListRow where
  Item : Option Genre
  OnTapped : Option RowCallback
  deriving DecidableEq, Repr

/-- Source `widgets.SearchEntry` as the page uses it: the entry text and whether
`OnSearched` is wired to the page. -/
structure SearchEntry where
  Text : String
  OnSearched : Bool
  deriving DecidableEq, Repr

/-- Source `GenresPage`. -/
structure GenresPage where
  contr : Controller
  mp : MediaProvider
  genres : List Genre
  list : GenreList
  searcher : SearchEntry

/-- Source `NewGenreListRow`. -/
def NewGenreListRow : GenreListRow :=
  { Item := none, OnTapped := none }

/-- Source `NewGenreList(items)`; `OnNavTo` starts nil. -/
def NewGenreList (items : List Genre) : GenreList :=
  { Items := items, OnNavTo := false }

/-- The create-item function handed to `widget.NewList` by `NewGenreList`. -/
def GenreList.createItem (_a : GenreList) : GenreListRow :=
  { NewGenreListRow with OnTapped := some RowCallback.rowDoubleTapped }

/-- The update-item function handed to `widget.NewList` by `NewGenreList`:
`row.Item = a.Items[id]`; `none` when the index is out of range. -/
def GenreList.updateItem (a : GenreList) (id : Nat) (row : GenreListRow) : Option GenreListRow :=
  match a.Items.get? id with
  | some g => some { row with Item := some g }
  | none => none

/-- Source `GenreList.onRowDoubleTapped(item)`: the `OnNavTo` invocations made, or
`none` when `item` is nil and gets dereferenced. -/
def GenreList.onRowDoubleTapped (a : GenreList) (item : Option Genre) : Option (List String) :=
  if a.OnNavTo then
    match item with
    | some g => some [g.Name]
    | none => none
  else
    some []

/-- Source `GenreListRow.Tapped` for a row of list `a`: runs `OnTapped` when set. -/
def GenreListRow.Tapped (r : GenreListRow) (a : GenreList) : Option (List String) :=
  match r.OnTapped with
  | some RowCallback.rowDoubleTapped => a.onRowDoubleTapped r.Item
  | none => some []

/-- Source `GenresPage.onSearched(query)`. -/
def GenresPage.onSearched (lower : Char → Char) (a : GenresPage) (query : String) :
    GenresPage :=
  if query = "" then
    { a with list := { a.list with Items := a.genres } }
  else
    let query := ToLower lower query
    let result := FilterSlice a.genres (fun x => Contains (ToLower lower x.Name) query)
    { a with list := { a.list with Items := result } }

/-- Source `GenresPage.load(searchOnLoad)`: the fetch error is only logged. -/
def GenresPage.load (lower : Char → Char) (a : GenresPage) (searchOnLoad : Bool) :
    GenresPage :=
  let genres := a.mp.GetGenres.1
  let a := { a with genres := genres }
  if searchOnLoad then
    a.onSearched lower a.searcher.Text
  else
    { a with list := { a.list with Items := genres } }

/-- A freshly built page together with the argument of the `load` goroutine it started. -/
structure StartedPage where
  page : GenresPage
  searchOnLoad : Bool

/-- Source `newGenresPage(contr, mp, searchText)`. -/
def newGenresPage (contr : Controller) (mp : MediaProvider) (searchText : String) : StartedPage :=
  let list := { NewGenreList [] with OnNavTo := true }
  let searcher : SearchEntry := { Text := searchText, OnSearched := true }
  { page := { contr := contr, mp := mp, genres := [], list := list, searcher := searcher },
    searchOnLoad := searchText != "" }

/-- Source `NewGenresPage(contr, mp)`. -/
def NewGenresPage (contr : Controller) (mp : MediaProvider) : StartedPage :=
  newGenresPage contr mp ""

/-- Source `GenresPage.Reload`: starts `load(false)` on the page itself. -/
def GenresPage.Reload (a : GenresPage) : StartedPage :=
  { page := a, searchOnLoad := false }

/-- Source `savedArtistsGenresPage`. -/
structure savedArtistsGenresPage where
  isGenresPage : Bool
  contr : Controller
  mp : MediaProvider
  searchText : String

/-- Source `GenresPage.Save`; `isGenresPage` keeps its zero value. -/
def GenresPage.Save (a : GenresPage) : savedArtistsGenresPage :=
  { isGenresPage := false, contr := a.contr, mp := a.mp, searchText := a.searcher.Text }

/-- Source `savedArtistsGenresPage.Restore`. -/
def savedArtistsGenresPage.Restore (s : savedArtistsGenresPage) : StartedPage :=
  newGenresPage s.contr s.mp s.searchText

/-- Runs the pending `load` of a started page to completion. -/
def StartedPage.complete (lower : Char → Char) (p : StartedPage) : GenresPage :=
  p.page.load lower p.searchOnLoad

/-- A backend that answers with one genre together with an error. -/
def failingWithGenres : MediaProvider :=
  { GetGenres := ([⟨"Rock", 1, 1⟩], some "connection reset") }

/-! ## `router.go` -/

/-- Modelled from the spec: the page-kind tag of package `controller` is
declared elsewhere. The spec enumerates eleven kinds; the tag is an integer
type in Go, so any other value is a kind the router does not list, kept here
with its number. -/
inductive PageKind where
  | Album
  | Albums
  | Artist
  | Artists
  | Favorites
  | Genre
  | Genres
  | NowPlaying
  | Playlist
  | Playlists
  | Tracks
  | other (tag : Nat)
  deriving DecidableEq, Repr

/-- Modelled from the spec: `controller.Route`, a page kind plus a string
argument, compared by value. -/
structure Route where
  Page : PageKind
  Arg : String
  deriving DecidableEq, Repr

/-- The eleven page kinds the spec enumerates. -/
def enumeratedKinds : List PageKind :=
  [PageKind.Album, PageKind.Albums, PageKind.Artist, PageKind.Artists, PageKind.Favorites,
   PageKind.Genre, PageKind.Genres, PageKind.NowPlaying, PageKind.Playlist, PageKind.Playlists,
   PageKind.Tracks]

/-- A non-nil `Page` value. The page constructors other than `NewGenresPage`
are defined in other files; each page is the constructor call that built it,
with the route argument it received. A constructor returns a typed pointer, so
the `Page` interface value made from it is never nil. -/
inductive Page where
  | AlbumPage (arg : String)
  | AlbumsPage
  | ArtistPage (arg : String)
  | ArtistsPage
  | FavoritesPage
  | GenrePage (arg : String)
  | GenresPage (p : StartedPage)
  | NowPlayingPage (arg : String)
  | PlaylistPage (arg : String)
  | PlaylistsPage
  | TracksPage

/-- Source `NavigationHandler`: what `CurrentPage()` answers. `SetPage` calls are
recorded in the trace of `Router.NavigateTo`. -/
structure NavigationHandler where
  CurrentPage : Route
  deriving DecidableEq, Repr

/-- Source `backend.ServerManager`, as far as the router reads it. -/
structure ServerManager where
  Server : MediaProvider

/-- Source `backend.App`, as far as the router reads it. -/
structure App where
  ServerManager : ServerManager

/-- Source `Router`. -/
structure Router where
  App : App
  Controller : Controller
  Nav : NavigationHandler

/-- Source `Router.CreatePage(rte)`; `none` is the nil page. -/
def Router.CreatePage (r : Router) (rte : Route) : Option Page :=
  match rte.Page with
  | PageKind.Album => some (Page.AlbumPage rte.Arg)
  | PageKind.Albums => some Page.AlbumsPage
  | PageKind.Artist => some (Page.ArtistPage rte.Arg)
  | PageKind.Artists => some Page.ArtistsPage
  | PageKind.Favorites => some Page.FavoritesPage
  | PageKind.Genre => some (Page.GenrePage rte.Arg)
  | PageKind.Genres => some (Page.GenresPage (NewGenresPage r.Controller r.App.ServerManager.Server))
  | PageKind.NowPlaying => some (Page.NowPlayingPage rte.Arg)
  | PageKind.Playlist => some (Page.PlaylistPage rte.Arg)
  | PageKind.Playlists => some Page.PlaylistsPage
  | PageKind.Tracks => some Page.TracksPage
  | PageKind.other _ => none

/-- What `Router.NavigateTo` does, in order. -/
inductive NavEvent where
  /-- A call of `r.CreatePage(rte)`. -/
  | createPage (rte : Route)
  /-- A call of `r.Nav.SetPage(p)` with the page it was given. -/
  | setPage (p : Option Page)

/-- Whether an event is a `SetPage` call. -/
def NavEvent.isSetPage : NavEvent → Bool
  | NavEvent.setPage _ => true
  | NavEvent.createPage _ => false

/-- Whether an event is a `SetPage` call with the nil page. -/
def NavEvent.isSetPageNil : NavEvent → Bool
  | NavEvent.setPage none => true
  | _ => false

/-- Source `Router.NavigateTo(rte)`: the trace of its calls. -/
def Router.NavigateTo (r : Router) (rte : Route) : List NavEvent :=
  if rte ≠ r.Nav.CurrentPage then
    [NavEvent.createPage rte, NavEvent.setPage (r.CreatePage rte)]
  else
    []

/-- A router whose navigation host displays the genres page. -/
def genresRouter : Router :=
  { App := ⟨⟨⟨([], none)⟩⟩⟩, Controller := ⟨0⟩, Nav := ⟨⟨PageKind.Genres, ""⟩⟩ }

/-! ## `auxcontrols.go`: the volume control -/

/-- The number of binary digits of `n`; `fuel` bounds the recursion and `n`
itself is always enough. -/
def bitLengthAux : Nat → Nat → Nat
  | 0, _ => 0
  | fuel + 1, n => if n = 0 then 0 else bitLengthAux fuel (n / 2) + 1

/-- Go `float64(n)` for a natural number: `n` rounded to a 53-bit significand,
to nearest and ties to even, as the integer the float equals. -/
def float64OfNat (n : Nat) : Nat :=
  if n < 2 ^ 53 then n
  else
    let e := bitLengthAux n n - 53
    let q := n / 2 ^ e
    let r := n % 2 ^ e
    if 2 ^ e < 2 * r ∨ (2 * r = 2 ^ e ∧ q % 2 = 1) then (q + 1) * 2 ^ e else q * 2 ^ e

/-- Go `float64(vol)` for an `int`: the value of the resulting float, which is
an integer; conversion is exact below 2^53 in magnitude and rounds above. -/
def float64 (vol : Int) : Int :=
  if 0 ≤ vol then (float64OfNat vol.toNat : Int) else -(float64OfNat (-vol).toNat : Int)

/-- Go `int(volume)` for a float that holds an integer: that integer when it
fits the 64-bit `int`; otherwise the result is implementation-specific and is
whatever `oob` gives. -/
def toInt (oob : Int → Int) (volume : Int) : Int :=
  if -2 ^ 63 ≤ volume ∧ volume < 2 ^ 63 then volume else oob volume

/-- The icons `updateIconForVolume` chooses between. -/
inductive VolumeIcon where
  | VolumeMuteIcon
  | VolumeDownIcon
  | VolumeUpIcon
  deriving DecidableEq, Repr

/-- Source `volumeSlider`: the `widget.Slider` fields the control sets. `Value` is a
float in Go; every value stored here is a float holding an integer and is kept
as that integer. -/
structure volumeSlider where
  Min : Int
  Max : Int
  Step : Int
  Value : Int
  Width : Int
  deriving DecidableEq, Repr

/-- The toolkit's `Slider.clampValueToRange`: `Value` is pulled into the range
from `Min` to `Max`. Its rounding to the step grid leaves an integer value
alone, the step being 1. -/
def volumeSlider.clampValueToRange (s : volumeSlider) : volumeSlider :=
  if s.Max ≤ s.Value then
    { s with Value := s.Max }
  else if s.Value ≤ s.Min then
    { s with Value := s.Min }
  else
    s

/-- The toolkit's `Refresh` on the slider: its renderer clamps the value into
the range before drawing. -/
def volumeSlider.Refresh (s : volumeSlider) : volumeSlider :=
  s.clampValueToRange

/-- Source `VolumeControl`. `OnSetVolume` tells whether the callback is set. -/
structure VolumeControl where
  icon : VolumeIcon
  slider : volumeSlider
  OnSetVolume : Bool
  muted : Bool
  lastVol : Int
  deriving DecidableEq, Repr

/-- Source `NewVolumeSlider(width)`. -/
def NewVolumeSlider (width : Int) : volumeSlider :=
  { Min := 0, Max := 100, Step := 1, Value := 100, Width := width }

/-- Source `NewVolumeControl(initialVol)`; the value is stored without a refresh. -/
def NewVolumeControl (initialVol : Int) : VolumeControl :=
  let slider := NewVolumeSlider 100
  { icon := VolumeIcon.VolumeUpIcon,
    slider := { slider with Step := 1, Value := float64 initialVol },
    OnSetVolume := false,
    muted := false,
    lastVol := initialVol }

/-- Source `VolumeControl.updateIconForVolume(vol)`. -/
def VolumeControl.updateIconForVolume (v : VolumeControl) (vol : Int) : VolumeControl :=
  if vol ≤ 0 then
    { v with icon := VolumeIcon.VolumeMuteIcon }
  else if vol < 50 then
    { v with icon := VolumeIcon.VolumeDownIcon }
  else
    { v with icon := VolumeIcon.VolumeUpIcon }

/-- Source `VolumeControl.invokeOnVolumeChange(vol)`: the `OnSetVolume` invocations made. -/
def VolumeControl.invokeOnVolumeChange (v : VolumeControl) (vol : Int) : List Int :=
  if v.OnSetVolume then [vol] else []

/-- Source `VolumeControl.setDisplayedVolume(vol)`: stores `float64(vol)` in the
slider, refreshes the slider, then updates the icon. -/
def VolumeControl.setDisplayedVolume (v : VolumeControl) (vol : Int) : VolumeControl :=
  let v := { v with slider := { v.slider with Value := float64 vol } }
  let v := { v with slider := v.slider.Refresh }
  v.updateIconForVolume vol

/-- Source `VolumeControl.SetVolume(vol)`: the new state and the `OnSetVolume`
invocations made. -/
def VolumeControl.SetVolume (v : VolumeControl) (vol : Int) : VolumeControl × List Int :=
  if (vol = v.lastVol ∧ ¬ v.muted = true) ∨ (v.muted = true ∧ vol = 0) then
    (v, [])
  else
    let v := { v with lastVol := vol }
    let v := { v with muted := false }
    (v.setDisplayedVolume vol, [])

/-- Source `VolumeControl.onChanged(volume)`. -/
def VolumeControl.onChanged (oob : Int → Int) (v : VolumeControl) (volume : Int) :
    VolumeControl × List Int :=
  let vol := toInt oob volume
  let v := { v with lastVol := vol }
  let v := { v with muted := false }
  let v := v.updateIconForVolume vol
  (v, v.invokeOnVolumeChange vol)

/-- Source `VolumeControl.toggleMute()`. -/
def VolumeControl.toggleMute (oob : Int → Int) (v : VolumeControl) : VolumeControl × List Int :=
  if ¬ v.muted = true then
    let v := { v with muted := true }
    let v := { v with lastVol := toInt oob v.slider.Value }
    let v := v.setDisplayedVolume 0
    (v, v.invokeOnVolumeChange 0)
  else
    let v := { v with muted := false }
    let v := v.setDisplayedVolume v.lastVol
    (v, v.invokeOnVolumeChange v.lastVol)

/-- A slider change: the toolkit slider stores its new value and then fires
`OnChanged` with it, which `NewVolumeControl` wires to `onChanged`. -/
def VolumeControl.sliderChanged (oob : Int → Int) (v : VolumeControl) (value : Int) :
    VolumeControl × List Int :=
  let v := { v with slider := { v.slider with Value := value } }
  v.onChanged oob value

/-- The operations that move a volume control from one state to the next. -/
inductive VolumeOp where
  | SetVolume (vol : Int)
  | sliderChanged (value : Int)
  | toggleMute
  /-- The toolkit redraws the slider. -/
  | refresh
  /-- An assignment to the exported `OnSetVolume` field. -/
  | setOnSetVolume (set : Bool)
  deriving DecidableEq, Repr

/-- Whether the integer a slider change carries fits the 64-bit `int`. -/
def VolumeOp.fitsInt : VolumeOp → Bool
  | VolumeOp.sliderChanged value => decide (-2 ^ 63 ≤ value ∧ value < 2 ^ 63)
  | _ => true

/-- One operation on a control. -/
def VolumeControl.step (oob : Int → Int) (v : VolumeControl) :
    VolumeOp → VolumeControl × List Int
  | VolumeOp.SetVolume vol => v.SetVolume vol
  | VolumeOp.sliderChanged value => v.sliderChanged oob value
  | VolumeOp.toggleMute => v.toggleMute oob
  | VolumeOp.refresh => ({ v with slider := v.slider.Refresh }, [])
  | VolumeOp.setOnSetVolume b => ({ v with OnSetVolume := b }, [])

/-- The state after a sequence of operations. -/
def VolumeControl.run (oob : Int → Int) (v : VolumeControl) : List VolumeOp → VolumeControl
  | [] => v
  | op :: ops => VolumeControl.run oob (v.step oob op).1 ops

/-- The slider keeps the range `NewVolumeSlider` gave it, and the displayed
volume agrees with the bookkeeping: zero when muted, the remembered volume
when unmuted and that volume lies in the range. -/
def VolumeControl.consistent (v : VolumeControl) : Prop :=
  v.slider.Min = 0 ∧ v.slider.Max = 100
    ∧ (v.muted = true → v.slider.Value = 0)
    ∧ (v.muted = false → 0 ≤ v.lastVol → v.lastVol ≤ 100 → v.slider.Value = v.lastVol)

/-! ## The substring test -/

theorem startsWith_iff (s p : List Char) :
    startsWith s p = true ↔ ∃ post, s = p ++ post := by
  induction s generalizing p with
  | nil =>
    cases p with
    | nil => simp [startsWith]
    | cons d p => simp [startsWith]
  | cons c s ih =>
    cases p with
    | nil => simp [startsWith]
    | cons d p =>
      simp only [startsWith, Bool.and_eq_true, beq_iff_eq, ih, List.cons_append,
        List.cons.injEq]
      constructor
      · rintro ⟨h, post, hp⟩
        exact ⟨post, h, hp⟩
      · rintro ⟨post, h, hp⟩
        exact ⟨h, post, hp⟩

theorem containsChars_iff (s sub : List Char) :
    containsChars s sub = true ↔ ∃ pre post, s = pre ++ sub ++ post := by
  induction s with
  | nil =>
    simp only [containsChars, startsWith_iff]
    constructor
    · rintro ⟨post, h⟩
      exact ⟨[], post, by simpa using h⟩
    · rintro ⟨pre, post, h⟩
      have h1 : pre ++ sub ++ post = [] := h.symm
      simp only [List.append_eq_nil] at h1
      exact ⟨[], by simp [h1.1.2]⟩
  | cons c s ih =>
    simp only [containsChars, Bool.or_eq_true, startsWith_iff, ih]
    constructor
    · rintro (⟨post, h⟩ | ⟨pre, post, h⟩)
      · exact ⟨[], post, by simpa using h⟩
      · exact ⟨c :: pre, post, by simp [h]⟩
    · rintro ⟨pre, post, h⟩
      cases pre with
      | nil => exact Or.inl ⟨post, by simpa using h⟩
      | cons d pre =>
        simp only [List.cons_append, List.cons.injEq] at h
        exact Or.inr ⟨pre, post, h.2⟩

theorem Contains_iff (s sub : String) : Contains s sub = true ↔ IsSubstring sub s := by
  simp [Contains, IsSubstring, containsChars_iff]

theorem Contains_empty (lower : Char → Char) (s : String) :
    Contains s (ToLower lower "") = true := by
  rw [Contains_iff]
  exact ⟨[], s.data, by simp [ToLower]⟩

/-! ## Genres page -/

/-- C1: `onSearched(q)` sets the visible list to the cached genres whose
lower-cased name contains the lower-cased query as a substring, in their
original order; for the empty query the visible list is the cached list
unchanged. -/
theorem onSearched_filters (lower : Char → Char) (a : GenresPage) (q : String) :
    (a.onSearched lower q).list.Items
        = a.genres.filter (fun g => Contains (ToLower lower g.Name) (ToLower lower q))
      ∧ (∀ g : Genre, Contains (ToLower lower g.Name) (ToLower lower q) = true
          ↔ IsSubstring (ToLower lower q) (ToLower lower g.Name))
      ∧ (a.onSearched lower "").list.Items = a.genres := by
  refine ⟨?_, fun g => Contains_iff _ _, ?_⟩
  · by_cases hq : q = ""
    · subst hq
      simp [GenresPage.onSearched, Contains_empty]
    · simp [GenresPage.onSearched, hq, FilterSlice]
  · simp [GenresPage.onSearched]

theorem load_items (lower : Char → Char) (a : GenresPage) (searchOnLoad : Bool) :
    (a.load lower searchOnLoad).list.Items
      = if searchOnLoad = true ∧ a.searcher.Text ≠ "" then
          a.mp.GetGenres.1.filter
            (fun g => Contains (ToLower lower g.Name) (ToLower lower a.searcher.Text))
        else a.mp.GetGenres.1 := by
  cases searchOnLoad with
  | false => simp [GenresPage.load]
  | true =>
    by_cases ht : a.searcher.Text = ""
    · simp [GenresPage.load, GenresPage.onSearched, ht]
    · simp [GenresPage.load, GenresPage.onSearched, ht, FilterSlice]

theorem load_searcher (lower : Char → Char) (a : GenresPage) (searchOnLoad : Bool) :
    (a.load lower searchOnLoad).searcher = a.searcher := by
  cases searchOnLoad with
  | false => simp [GenresPage.load]
  | true =>
    by_cases ht : a.searcher.Text = ""
    · simp [GenresPage.load, GenresPage.onSearched, ht]
    · simp [GenresPage.load, GenresPage.onSearched, ht]

/-- C4, as stated, fails: the backend returns an error together with a
non-empty slice, and after the load of a new page the visible list is that
slice, not the empty list. -/
theorem load_error_list_not_empty :
    failingWithGenres.GetGenres.2 ≠ none
      ∧ ((NewGenresPage ⟨0⟩ failingWithGenres).complete Char.toLower).list.Items
          = [⟨"Rock", 1, 1⟩]
      ∧ ((NewGenresPage ⟨0⟩ failingWithGenres).complete Char.toLower).list.Items ≠ [] := by
  decide

/-- C4, amended: when `GetGenres` returns an error together with a nil or
empty slice, the visible list is empty after `load`, with or without
search-on-load. -/
theorem load_error_empty (lower : Char → Char) (a : GenresPage) (searchOnLoad : Bool)
    (_herr : a.mp.GetGenres.2 ≠ none) (hnil : a.mp.GetGenres.1 = []) :
    (a.load lower searchOnLoad).list.Items = [] := by
  rw [load_items, hnil]
  split <;> simp

/-- A witness for `load_error_empty`: a page showing one genre whose backend
then fails with a nil slice. -/
theorem load_error_empty_witness :
    (({ contr := ⟨0⟩, mp := ⟨([], some "timeout")⟩, genres := [⟨"Rock", 1, 1⟩],
        list := ⟨[⟨"Rock", 1, 1⟩], true⟩, searcher := ⟨"ro", true⟩ } : GenresPage).load
        Char.toLower true).list.Items = [] :=
  load_error_empty Char.toLower _ true (by decide) rfl

/-- C5: the page rebuilt by `Save().Restore()` holds the saved search text,
and once its load completes its visible list is the fetched genres filtered
case-insensitively by that text, all of them when the text is empty. -/
theorem save_restore_roundtrip (lower : Char → Char) (a : GenresPage) (s : String)
    (G : List Genre) (hs : a.searcher.Text = s) (hG : a.mp.GetGenres.1 = G) :
    a.Save.Restore.page.searcher.Text = s
      ∧ (a.Save.Restore.complete lower).searcher.Text = s
      ∧ (a.Save.Restore.complete lower).list.Items
          = G.filter (fun g => Contains (ToLower lower g.Name) (ToLower lower s))
      ∧ (s = "" → (a.Save.Restore.complete lower).list.Items = G) := by
  subst hs hG
  have hitems : (a.Save.Restore.complete lower).list.Items
      = a.mp.GetGenres.1.filter
          (fun g => Contains (ToLower lower g.Name) (ToLower lower a.searcher.Text)) := by
    unfold StartedPage.complete
    rw [load_items]
    by_cases ht : a.searcher.Text = ""
    · simp [GenresPage.Save, savedArtistsGenresPage.Restore, newGenresPage, ht, Contains_empty]
    · simp [GenresPage.Save, savedArtistsGenresPage.Restore, newGenresPage, ht]
  refine ⟨rfl, ?_, hitems, ?_⟩
  · unfold StartedPage.complete
    rw [load_searcher]
    rfl
  · intro ht
    rw [hitems, ht]
    simp [Contains_empty]

/-- A witness for `save_restore_roundtrip`: search text "Rock" over the genres
Rock and Pop restores to a page showing Rock alone. -/
theorem save_restore_roundtrip_witness :
    (({ contr := ⟨0⟩, mp := ⟨([⟨"Rock", 1, 1⟩, ⟨"Pop", 2, 2⟩], none)⟩,
        genres := [⟨"Rock", 1, 1⟩, ⟨"Pop", 2, 2⟩], list := ⟨[⟨"Rock", 1, 1⟩], true⟩,
        searcher := ⟨"Rock", true⟩ } : GenresPage).Save.Restore.complete
        Char.toLower).list.Items = [⟨"Rock", 1, 1⟩] :=
  (save_restore_roundtrip Char.toLower _ "Rock" [⟨"Rock", 1, 1⟩, ⟨"Pop", 2, 2⟩] rfl rfl).2.2.1.trans
    (by decide)

/-- C7: for a list whose `OnNavTo` is set, tapping a row built by the list
and holding genre `g` invokes `OnNavTo` exactly once, with `g.Name`. -/
theorem tapped_invokes_OnNavTo_once (a : GenreList) (g : Genre) (row : GenreListRow)
    (hset : a.OnNavTo = true) (hrow : row.OnTapped = a.createItem.OnTapped)
    (hitem : row.Item = some g) :
    row.Tapped a = some [g.Name] ∧ a.onRowDoubleTapped (some g) = some [g.Name] := by
  have hcb : row.OnTapped = some RowCallback.rowDoubleTapped := by
    rw [hrow]
    rfl
  simp [GenreListRow.Tapped, GenreList.onRowDoubleTapped, hcb, hitem, hset]

/-- A witness for `tapped_invokes_OnNavTo_once`: the row named "Jazz". -/
theorem tapped_invokes_OnNavTo_once_witness :
    (({ Item := some ⟨"Jazz", 3, 40⟩, OnTapped := some RowCallback.rowDoubleTapped } :
        GenreListRow).Tapped ⟨[⟨"Jazz", 3, 40⟩], true⟩ = some ["Jazz"])
      ∧ (⟨[⟨"Jazz", 3, 40⟩], true⟩ : GenreList).onRowDoubleTapped (some ⟨"Jazz", 3, 40⟩)
          = some ["Jazz"] :=
  tapped_invokes_OnNavTo_once ⟨[⟨"Jazz", 3, 40⟩], true⟩ ⟨"Jazz", 3, 40⟩ _ rfl rfl rfl

/-- C10: `Reload` ignores the search text: once the load it starts completes,
the visible list is everything the backend returned, and the search entry
still holds its text. -/
theorem reload_ignores_search (lower : Char → Char) (a : GenresPage) :
    (a.Reload.complete lower).list.Items = a.mp.GetGenres.1
      ∧ (a.Reload.complete lower).searcher.Text = a.searcher.Text := by
  simp [GenresPage.Reload, StartedPage.complete, GenresPage.load]

/-! ## Router -/

/-- C2: when the navigation host's `CurrentPage()` is the route asked for,
`NavigateTo` makes no call at all: no `SetPage`, no page construction. -/
theorem navigateTo_current_noop (r : Router) (rte : Route) (hcur : r.Nav.CurrentPage = rte) :
    r.NavigateTo rte = [] ∧ (r.NavigateTo rte).any NavEvent.isSetPage = false := by
  simp [Router.NavigateTo, hcur]

/-- A witness for `navigateTo_current_noop`: the genres route while the genres
page is displayed. -/
theorem navigateTo_current_noop_witness :
    (genresRouter.NavigateTo ⟨PageKind.Genres, ""⟩ = []
      ∧ (genresRouter.NavigateTo ⟨PageKind.Genres, ""⟩).any NavEvent.isSetPage = false) :=
  navigateTo_current_noop genresRouter ⟨PageKind.Genres, ""⟩ rfl

/-- C3, as stated, fails: with the genres page displayed, navigating to a
route of a kind outside the eleven calls `SetPage`, handing it the nil page. -/
theorem navigateTo_unrecognized_calls_SetPage :
    PageKind.other 0 ∉ enumeratedKinds
      ∧ (genresRouter.NavigateTo ⟨PageKind.other 0, ""⟩).any NavEvent.isSetPage = true
      ∧ (genresRouter.NavigateTo ⟨PageKind.other 0, ""⟩).any NavEvent.isSetPageNil = true := by
  decide

/-- C3, amended: for a route of a kind outside the eleven, `NavigateTo` calls
`SetPage` exactly when the route differs from the displayed one, and then once,
with the nil page that `CreatePage` returned. -/
theorem navigateTo_unrecognized (r : Router) (rte : Route)
    (hkind : rte.Page ∉ enumeratedKinds) :
    (rte = r.Nav.CurrentPage → r.NavigateTo rte = [])
      ∧ (rte ≠ r.Nav.CurrentPage →
          (r.NavigateTo rte).filter NavEvent.isSetPage = [NavEvent.setPage none]) := by
  have hnone : r.CreatePage rte = none := by
    cases rte with
    | mk k arg =>
      cases k <;> first | rfl | exact absurd (by simp [enumeratedKinds]) hkind
  constructor
  · intro h
    simp [Router.NavigateTo, h]
  · intro h
    simp [Router.NavigateTo, h, hnone, NavEvent.isSetPage]

/-- A witness for `navigateTo_unrecognized`: kind 0 while the genres page is
displayed. -/
theorem navigateTo_unrecognized_witness :
    (genresRouter.NavigateTo ⟨PageKind.other 0, ""⟩).filter NavEvent.isSetPage
      = [NavEvent.setPage none] :=
  (navigateTo_unrecognized genresRouter ⟨PageKind.other 0, ""⟩ (by decide)).2 (by decide)

/-- C6: `CreatePage` returns the nil page exactly for the routes whose kind is
none of the eleven enumerated ones, and a page for each of the eleven. -/
theorem createPage_nil_iff (r : Router) (rte : Route) :
    (r.CreatePage rte = none ↔ rte.Page ∉ enumeratedKinds)
      ∧ ((r.CreatePage rte).isSome = true ↔ rte.Page ∈ enumeratedKinds) := by
  cases rte with
  | mk k arg =>
    cases k <;> simp [Router.CreatePage, enumeratedKinds]

/-! ## Volume control -/

theorem float64_exact (x : Int) (h0 : 0 ≤ x) (h100 : x ≤ 100) : float64 x = x := by
  have hlt : x.toNat < 2 ^ 53 := by omega
  simp only [float64, h0, if_true, float64OfNat, hlt]
  omega

theorem toInt_exact (oob : Int → Int) (x : Int) (h0 : 0 ≤ x) (h100 : x ≤ 100) :
    toInt oob x = x := by
  have h : -2 ^ 63 ≤ x ∧ x < 2 ^ 63 := by constructor <;> omega
  simp only [toInt, h, and_self, if_true]

theorem Refresh_range (s : volumeSlider) :
    s.Refresh.Min = s.Min ∧ s.Refresh.Max = s.Max := by
  unfold volumeSlider.Refresh volumeSlider.clampValueToRange
  split
  · exact ⟨rfl, rfl⟩
  · split <;> exact ⟨rfl, rfl⟩

theorem Refresh_value (s : volumeSlider) (hmin : s.Min = 0) (hmax : s.Max = 100)
    (h0 : 0 ≤ s.Value) (h100 : s.Value ≤ 100) : s.Refresh.Value = s.Value := by
  unfold volumeSlider.Refresh volumeSlider.clampValueToRange
  split
  · next h => simp only; omega
  · split
    · next h => simp only; omega
    · rfl

theorem Refresh_float64 (s : volumeSlider) (vol : Int) (hmin : s.Min = 0) (hmax : s.Max = 100)
    (h0 : 0 ≤ vol) (h100 : vol ≤ 100) :
    ({ s with Value := float64 vol } : volumeSlider).Refresh.Value = vol := by
  have hf := float64_exact vol h0 h100
  have h := Refresh_value ({ s with Value := float64 vol } : volumeSlider) hmin hmax
    (by simp only [hf, h0]) (by simp only [hf, h100])
  rw [h]
  exact hf

theorem updateIconForVolume_fields (v : VolumeControl) (vol : Int) :
    (v.updateIconForVolume vol).slider = v.slider
      ∧ (v.updateIconForVolume vol).muted = v.muted
      ∧ (v.updateIconForVolume vol).lastVol = v.lastVol
      ∧ (v.updateIconForVolume vol).OnSetVolume = v.OnSetVolume := by
  unfold VolumeControl.updateIconForVolume
  split
  · exact ⟨rfl, rfl, rfl, rfl⟩
  · split <;> exact ⟨rfl, rfl, rfl, rfl⟩

theorem setDisplayedVolume_fields (v : VolumeControl) (vol : Int) :
    (v.setDisplayedVolume vol).slider
        = ({ v.slider with Value := float64 vol } : volumeSlider).Refresh
      ∧ (v.setDisplayedVolume vol).muted = v.muted
      ∧ (v.setDisplayedVolume vol).lastVol = v.lastVol
      ∧ (v.setDisplayedVolume vol).OnSetVolume = v.OnSetVolume := by
  unfold VolumeControl.setDisplayedVolume
  obtain ⟨h1, h2, h3, h4⟩ := updateIconForVolume_fields
    { v with slider := ({ v.slider with Value := float64 vol } : volumeSlider).Refresh } vol
  exact ⟨h1, h2, h3, h4⟩

theorem setDisplayedVolume_range (v : VolumeControl) (vol : Int) :
    (v.setDisplayedVolume vol).slider.Min = v.slider.Min
      ∧ (v.setDisplayedVolume vol).slider.Max = v.slider.Max := by
  rw [(setDisplayedVolume_fields v vol).1]
  exact Refresh_range _

theorem setDisplayedVolume_value (v : VolumeControl) (vol : Int) (hmin : v.slider.Min = 0)
    (hmax : v.slider.Max = 100) (h0 : 0 ≤ vol) (h100 : vol ≤ 100) :
    (v.setDisplayedVolume vol).slider.Value = vol := by
  rw [(setDisplayedVolume_fields v vol).1]
  exact Refresh_float64 v.slider vol hmin hmax h0 h100

theorem NewVolumeControl_consistent (initialVol : Int) :
    (NewVolumeControl initialVol).consistent := by
  refine ⟨rfl, rfl, ?_, ?_⟩
  · intro h
    exact absurd h (by simp [NewVolumeControl])
  · intro _ h0 h100
    exact float64_exact initialVol h0 h100

theorem SetVolume_consistent (v : VolumeControl) (vol : Int) (h : v.consistent) :
    (v.SetVolume vol).1.consistent := by
  unfold VolumeControl.SetVolume
  split
  · exact h
  · obtain ⟨hmin, hmax, _, _⟩ := h
    have hf := setDisplayedVolume_fields { v with lastVol := vol, muted := false } vol
    have hr := setDisplayedVolume_range { v with lastVol := vol, muted := false } vol
    refine ⟨hr.1.trans hmin, hr.2.trans hmax, ?_, ?_⟩
    · intro hm
      rw [hf.2.1] at hm
      exact absurd hm (by simp)
    · intro _ h0 h100
      rw [hf.2.2.1] at h0 h100 ⊢
      exact setDisplayedVolume_value _ vol hmin hmax h0 h100

theorem onChanged_fields (oob : Int → Int) (v : VolumeControl) (volume : Int) :
    (v.onChanged oob volume).1.slider = v.slider ∧ (v.onChanged oob volume).1.muted = false
      ∧ (v.onChanged oob volume).1.lastVol = toInt oob volume := by
  unfold VolumeControl.onChanged
  obtain ⟨h1, h2, h3, _⟩ := updateIconForVolume_fields
    { v with lastVol := toInt oob volume, muted := false } (toInt oob volume)
  exact ⟨h1, h2, h3⟩

theorem sliderChanged_consistent (oob : Int → Int) (v : VolumeControl) (value : Int)
    (h : v.consistent) (hfit : -2 ^ 63 ≤ value ∧ value < 2 ^ 63) :
    (v.sliderChanged oob value).1.consistent := by
  unfold VolumeControl.sliderChanged
  obtain ⟨h1, h2, h3⟩ :=
    onChanged_fields oob { v with slider := { v.slider with Value := value } } value
  have ht : toInt oob value = value := by simp only [toInt, hfit, and_self, if_true]
  refine ⟨?_, ?_, ?_, ?_⟩
  · rw [h1]; exact h.1
  · rw [h1]; exact h.2.1
  · intro hm
    rw [h2] at hm
    exact absurd hm (by simp)
  · intro _ _ _
    rw [h1, h3, ht]

theorem toggleMute_fields (oob : Int → Int) (v : VolumeControl) :
    (v.toggleMute oob).1.muted = !v.muted
      ∧ (v.toggleMute oob).1.slider
          = ({ v.slider with
                Value := float64 (if v.muted = true then v.lastVol else 0) } : volumeSlider).Refresh
      ∧ (v.toggleMute oob).1.lastVol
          = (if v.muted = true then v.lastVol else toInt oob v.slider.Value)
      ∧ (v.toggleMute oob).1.OnSetVolume = v.OnSetVolume
      ∧ (v.toggleMute oob).2
          = (if v.OnSetVolume = true then [if v.muted = true then v.lastVol else 0] else []) := by
  unfold VolumeControl.toggleMute
  cases hm : v.muted with
  | false =>
    obtain ⟨h1, h2, h3, h4⟩ := setDisplayedVolume_fields
      { v with muted := true, lastVol := toInt oob v.slider.Value } 0
    simp [VolumeControl.invokeOnVolumeChange, h1, h2, h3, h4]
  | true =>
    obtain ⟨h1, h2, h3, h4⟩ := setDisplayedVolume_fields { v with muted := false } v.lastVol
    simp [VolumeControl.invokeOnVolumeChange, h1, h2, h3, h4]

theorem toggleMute_consistent (oob : Int → Int) (v : VolumeControl) (h : v.consistent) :
    (v.toggleMute oob).1.consistent := by
  obtain ⟨h1, h2, h3, _, _⟩ := toggleMute_fields oob v
  obtain ⟨hmin, hmax, _, _⟩ := h
  have hr := Refresh_range
    ({ v.slider with Value := float64 (if v.muted = true then v.lastVol else 0) } : volumeSlider)
  refine ⟨?_, ?_, ?_, ?_⟩
  · rw [h2, hr.1]; exact hmin
  · rw [h2, hr.2]; exact hmax
  · intro hm
    rw [h1] at hm
    have hv : v.muted = false := by simpa using hm
    rw [h2, hv]
    simp only [Bool.false_eq_true, if_false]
    exact Refresh_float64 v.slider 0 hmin hmax (le_refl 0) (by decide)
  · intro hm h0 h100
    rw [h1] at hm
    have hv : v.muted = true := by simpa using hm
    rw [h3, hv] at h0 h100
    simp only [if_true] at h0 h100
    rw [h2, h3, hv]
    simp only [if_true]
    exact Refresh_float64 v.slider v.lastVol hmin hmax h0 h100

theorem refresh_consistent (v : VolumeControl) (h : v.consistent) :
    ({ v with slider := v.slider.Refresh } : VolumeControl).consistent := by
  obtain ⟨hmin, hmax, hmu, hun⟩ := h
  have hr := Refresh_range v.slider
  refine ⟨hr.1.trans hmin, hr.2.trans hmax, ?_, ?_⟩
  · intro hm
    have hv := hmu hm
    show v.slider.Refresh.Value = 0
    rw [Refresh_value _ hmin hmax (by omega) (by omega)]
    exact hv
  · intro hm h0 h100
    have hv := hun hm h0 h100
    show v.slider.Refresh.Value = v.lastVol
    have a0 : 0 ≤ v.slider.Value := by rw [hv]; exact h0
    have a100 : v.slider.Value ≤ 100 := by rw [hv]; exact h100
    rw [Refresh_value _ hmin hmax a0 a100]
    exact hv

theorem step_consistent (oob : Int → Int) (v : VolumeControl) (op : VolumeOp)
    (h : v.consistent) (hfit : op.fitsInt = true) : (v.step oob op).1.consistent := by
  cases op with
  | SetVolume vol => exact SetVolume_consistent v vol h
  | sliderChanged value =>
    exact sliderChanged_consistent oob v value h (by simpa [VolumeOp.fitsInt] using hfit)
  | toggleMute => exact toggleMute_consistent oob v h
  | refresh => exact refresh_consistent v h
  | setOnSetVolume b => exact h

theorem run_consistent (oob : Int → Int) (v : VolumeControl) (ops : List VolumeOp)
    (h : v.consistent) (hfit : ops.all VolumeOp.fitsInt = true) :
    (v.run oob ops).consistent := by
  induction ops generalizing v with
  | nil => exact h
  | cons op ops ih =>
    simp only [List.all_cons, Bool.and_eq_true] at hfit
    exact ih _ (step_consistent oob v op h hfit.1) hfit.2

theorem SetVolume_of_consistent (v : VolumeControl) (vol : Int) (h : v.consistent)
    (h0 : 0 ≤ vol) (h100 : vol ≤ 100) :
    (v.SetVolume vol).1.slider.Value = vol ∧ (v.SetVolume vol).2 = [] := by
  unfold VolumeControl.SetVolume
  split
  · next hc =>
    refine ⟨?_, rfl⟩
    rcases hc with ⟨hv, hm⟩ | ⟨hm, hv⟩
    · have hl0 : 0 ≤ v.lastVol := by rw [← hv]; exact h0
      have hl100 : v.lastVol ≤ 100 := by rw [← hv]; exact h100
      rw [hv]
      exact h.2.2.2 (by simpa using hm) hl0 hl100
    · rw [hv]
      exact h.2.2.1 hm
  · exact ⟨setDisplayedVolume_value _ vol h.1 h.2.1 h0 h100, rfl⟩

/-- C8, as stated, fails: on a control built for volume 70, `SetVolume(150)`
leaves the slider showing 100 and `SetVolume(-5)` leaves it showing 0, the
slider clamping what it displays to its range; a second `SetVolume(150)`
returns early and still shows 100. -/
theorem SetVolume_out_of_range_clamped :
    ((NewVolumeControl 70).SetVolume 150).1.slider.Value = 100
      ∧ ((NewVolumeControl 70).SetVolume 150).1.slider.Value ≠ 150
      ∧ ((NewVolumeControl 70).SetVolume (-5)).1.slider.Value = 0
      ∧ ((NewVolumeControl 70).SetVolume (-5)).1.slider.Value ≠ -5
      ∧ ((((NewVolumeControl 70).SetVolume 150).1).SetVolume 150).1.slider.Value = 100 := by
  decide

/-- C8, amended: in every state reached from `NewVolumeControl` by `SetVolume`,
slider changes to integer values that fit `int`, `toggleMute`, redraws and
assignments of the callback, `SetVolume(vol)` with `vol` from 0 to 100 leaves
the slider showing `vol` and does not invoke `OnSetVolume`. -/
theorem SetVolume_displays_vol (oob : Int → Int) (initialVol : Int) (ops : List VolumeOp)
    (vol : Int) (hops : ops.all VolumeOp.fitsInt = true) (h0 : 0 ≤ vol) (h100 : vol ≤ 100) :
    (((NewVolumeControl initialVol).run oob ops).SetVolume vol).1.slider.Value = vol
      ∧ (((NewVolumeControl initialVol).run oob ops).SetVolume vol).2 = [] :=
  SetVolume_of_consistent _ vol
    (run_consistent oob _ ops (NewVolumeControl_consistent initialVol) hops) h0 h100

/-- A witness for `SetVolume_displays_vol`: after a mute, an out-of-range
`SetVolume` and a slider change to 30, `SetVolume(30)` takes the early return
and the slider shows 30. -/
theorem SetVolume_displays_vol_witness :
    (((NewVolumeControl 70).run (fun _ => 0)
        [VolumeOp.toggleMute, VolumeOp.SetVolume 150, VolumeOp.sliderChanged 30]).SetVolume
        30).1.slider.Value = 30
      ∧ (((NewVolumeControl 70).run (fun _ => 0)
        [VolumeOp.toggleMute, VolumeOp.SetVolume 150, VolumeOp.sliderChanged 30]).SetVolume
        30).2 = [] :=
  SetVolume_displays_vol (fun _ => 0) 70
    [VolumeOp.toggleMute, VolumeOp.SetVolume 150, VolumeOp.sliderChanged 30] 30
    (by decide) (by decide) (by decide)

theorem run_range (oob : Int → Int) (v : VolumeControl) (ops : List VolumeOp) :
    (v.run oob ops).slider.Min = v.slider.Min ∧ (v.run oob ops).slider.Max = v.slider.Max := by
  induction ops generalizing v with
  | nil => exact ⟨rfl, rfl⟩
  | cons op ops ih =>
    have hstep : (v.step oob op).1.slider.Min = v.slider.Min
        ∧ (v.step oob op).1.slider.Max = v.slider.Max := by
      cases op with
      | SetVolume vol =>
        show (v.SetVolume vol).1.slider.Min = _ ∧ (v.SetVolume vol).1.slider.Max = _
        unfold VolumeControl.SetVolume
        split
        · exact ⟨rfl, rfl⟩
        · exact setDisplayedVolume_range _ vol
      | sliderChanged value =>
        show (v.sliderChanged oob value).1.slider.Min = _
          ∧ (v.sliderChanged oob value).1.slider.Max = _
        unfold VolumeControl.sliderChanged
        rw [(onChanged_fields oob _ value).1]
        exact ⟨rfl, rfl⟩
      | toggleMute =>
        show (v.toggleMute oob).1.slider.Min = _ ∧ (v.toggleMute oob).1.slider.Max = _
        rw [(toggleMute_fields oob v).2.1]
        exact Refresh_range _
      | refresh => exact Refresh_range v.slider
      | setOnSetVolume b => exact ⟨rfl, rfl⟩
    have hrec := ih (v.step oob op).1
    exact ⟨hrec.1.trans hstep.1, hrec.2.trans hstep.2⟩

/-- C9, as stated, fails twice over. A control built for volume 150 is unmuted
and its slider holds 150, yet after two `toggleMute` calls it shows 100. A
control fresh from `NewVolumeControl(50)` has no callback set, and two
`toggleMute` calls invoke `OnSetVolume` not at all. -/
theorem toggleMute_twice_fails :
    (NewVolumeControl 150).muted = false ∧ (NewVolumeControl 150).slider.Value = 150
      ∧ (((NewVolumeControl 150).toggleMute (fun _ => 0)).1.toggleMute
          (fun _ => 0)).1.slider.Value = 100
      ∧ (NewVolumeControl 50).muted = false ∧ (NewVolumeControl 50).slider.Value = 50
      ∧ ((NewVolumeControl 50).toggleMute (fun _ => 0)).2
          ++ (((NewVolumeControl 50).toggleMute (fun _ => 0)).1.toggleMute (fun _ => 0)).2
          = [] := by
  decide

/-- C9, amended: for an unmuted control, built by `NewVolumeControl` and driven
by its operations, whose slider shows a volume `x` from 0 to 100, two
`toggleMute` calls show 0 while muted in between and end unmuted showing `x`
again; when `OnSetVolume` is set they invoke it exactly twice, with 0 and then
with `x`. -/
theorem toggleMute_twice (oob : Int → Int) (initialVol : Int) (ops : List VolumeOp) (x : Int)
    (hm : ((NewVolumeControl initialVol).run oob ops).muted = false)
    (hx : ((NewVolumeControl initialVol).run oob ops).slider.Value = x)
    (h0 : 0 ≤ x) (h100 : x ≤ 100) :
    (((NewVolumeControl initialVol).run oob ops).toggleMute oob).1.muted = true
      ∧ (((NewVolumeControl initialVol).run oob ops).toggleMute oob).1.slider.Value = 0
      ∧ ((((NewVolumeControl initialVol).run oob ops).toggleMute oob).1.toggleMute oob).1.muted
          = false
      ∧ ((((NewVolumeControl initialVol).run oob ops).toggleMute
          oob).1.toggleMute oob).1.slider.Value = x
      ∧ (((NewVolumeControl initialVol).run oob ops).OnSetVolume = true →
          (((NewVolumeControl initialVol).run oob ops).toggleMute oob).2
            ++ ((((NewVolumeControl initialVol).run oob ops).toggleMute oob).1.toggleMute oob).2
            = [0, x]) := by
  obtain ⟨hmin, hmax⟩ := run_range oob (NewVolumeControl initialVol) ops
  generalize (NewVolumeControl initialVol).run oob ops = v at hm hx hmin hmax ⊢
  have hmin0 : v.slider.Min = 0 := hmin
  have hmax0 : v.slider.Max = 100 := hmax
  obtain ⟨a1, a2, a3, a4, a5⟩ := toggleMute_fields oob v
  obtain ⟨b1, b2, _, _, b5⟩ := toggleMute_fields oob (v.toggleMute oob).1
  rw [hm] at a1 a2 a3 a5
  simp only [Bool.not_false, Bool.false_eq_true, if_false] at a1 a2 a3 a5
  rw [hx, toInt_exact oob x h0 h100] at a3
  have r1 := Refresh_range ({ v.slider with Value := float64 0 } : volumeSlider)
  have v1 : (v.toggleMute oob).1.slider.Value = 0 := by
    rw [a2]
    exact Refresh_float64 v.slider 0 hmin0 hmax0 (le_refl 0) (by decide)
  have m1 : (v.toggleMute oob).1.slider.Min = 0 := by rw [a2, r1.1]; exact hmin0
  have x1 : (v.toggleMute oob).1.slider.Max = 100 := by rw [a2, r1.2]; exact hmax0
  rw [a1, a3, a4] at b5
  rw [a1] at b1
  rw [a1, a3] at b2
  simp only [if_true, Bool.not_true] at b1 b2 b5
  have v2 : ((v.toggleMute oob).1.toggleMute oob).1.slider.Value = x := by
    rw [b2]
    exact Refresh_float64 (v.toggleMute oob).1.slider x m1 x1 h0 h100
  refine ⟨a1, v1, b1, v2, ?_⟩
  intro hcb
  rw [a5, b5, hcb]
  rfl

/-- A witness for `toggleMute_twice`: a control built for volume 70 with the
callback set. -/
theorem toggleMute_twice_witness :
    ((((NewVolumeControl 70).run (fun _ => 0) [VolumeOp.setOnSetVolume true]).toggleMute
        (fun _ => 0)).1.toggleMute (fun _ => 0)).1.slider.Value = 70
      ∧ (((NewVolumeControl 70).run (fun _ => 0) [VolumeOp.setOnSetVolume true]).toggleMute
          (fun _ => 0)).2
        ++ ((((NewVolumeControl 70).run (fun _ => 0) [VolumeOp.setOnSetVolume true]).toggleMute
          (fun _ => 0)).1.toggleMute (fun _ => 0)).2 = [0, 70] :=
  ⟨(toggleMute_twice (fun _ => 0) 70 [VolumeOp.setOnSetVolume true] 70 rfl (by decide)
      (by decide) (by decide)).2.2.2.1,
    (toggleMute_twice (fun _ => 0) 70 [VolumeOp.setOnSetVolume true] 70 rfl (by decide)
      (by decide) (by decide)).2.2.2.2 rfl⟩

end Supersonic
